import Mathlib

/-!
Verification development for the opti-market quantitative analytics engine.

The repository pairs a Next.js frontend (present under `frontend/`) with a
Python analytics backend (`brain.py`, `data_loader.py`, `server.py`).  The
frontend API client (`frontend/src/lib/api.ts`), the dashboard page
(`frontend/src/app/dashboard/page.tsx`) and the analytics panels
(`frontend/src/components/AnalyticsPanels.tsx`) are embedded directly from
their TypeScript source.  The analytics core itself is not part of the
checked-in sources, so its operations (optimizer, Monte Carlo engine, stress
tests, efficient frontier) are modelled from the specification, as flagged in
each definition's doc comment.  All monetary and rate arithmetic is carried
out over `ℚ`.
-/

/-- Dot product of two rational vectors, zipping componentwise. -/
def dot (a b : List ℚ) : ℚ := (a.zipWith (· * ·) b).sum

/-- Matrix-vector product for a matrix given as a list of rows. -/
def matVec (m : List (List ℚ)) (v : List ℚ) : List ℚ := m.map (fun row => dot row v)

/-- Quadratic form `vᵀ m v`, used for portfolio variance `wᵀ Σ w`. -/
def quadForm (m : List (List ℚ)) (v : List ℚ) : ℚ := dot v (matVec m v)

/-- Insert a rational into an already ascending list, keeping it ascending. -/
def insertSorted (x : ℚ) : List ℚ → List ℚ
  | [] => [x]
  | y :: ys => if x ≤ y then x :: y :: ys else y :: insertSorted x ys

/-- Modelled from the spec: the Monte Carlo engine sorts the simulated P&L
array ascending before taking quantiles (`brain.py` is absent from the
sources).  Insertion sort over `ℚ`. -/
def sortPnl (xs : List ℚ) : List ℚ := xs.foldr insertSorted []

/-- Modelled from the spec: empirical quantile of a P&L sample at probability
`p`, taken as the sorted sample's entry at index `⌊p·N⌋` clamped into range. -/
def quantileOf (xs : List ℚ) (p : ℚ) : ℚ :=
  let s := sortPnl xs
  s.getD (min (Int.toNat ⌊p * s.length⌋) (s.length - 1)) 0

/-- One VaR/CVaR row of a Monte Carlo result, mirroring the `VarCvarEntry`
interface of `frontend/src/lib/api.ts` (fields `VaR_dollar`, `CVaR_dollar`,
`VaR_percent`, `CVaR_percent`). -/
structure VarCvarEntry where
  VaR_dollar : ℚ
  CVaR_dollar : ℚ
  VaR_percent : ℚ
  CVaR_percent : ℚ
deriving DecidableEq

/-- Modelled from the spec: for confidence level `α`,
`VaR_α = −quantile(P&L, 1−α)` and `CVaR_α = −mean {x ∈ P&L | x ≤ −VaR_α}`;
the percent forms divide the dollar forms by capital and scale to percent
(`brain.py` is absent from the sources). -/
def varCvarAt (pnl : List ℚ) (capital : ℚ) (alpha : ℚ) : VarCvarEntry :=
  let q := quantileOf pnl (1 - alpha)
  let tail := pnl.filter (fun x => x ≤ q)
  let varDollar := -q
  let cvarDollar := -(tail.sum / tail.length)
  { VaR_dollar := varDollar
    CVaR_dollar := cvarDollar
    VaR_percent := varDollar / capital * 100
    CVaR_percent := cvarDollar / capital * 100 }

lemma mem_insertSorted (x y : ℚ) (l : List ℚ) :
    y ∈ insertSorted x l ↔ y = x ∨ y ∈ l := by
  induction l with
  | nil => simp [insertSorted]
  | cons z zs ih =>
      by_cases h : x ≤ z
      · simp [insertSorted, h]
      · simp [insertSorted, h, ih]
        tauto

lemma mem_sortPnl (y : ℚ) (xs : List ℚ) : y ∈ sortPnl xs ↔ y ∈ xs := by
  induction xs with
  | nil => simp [sortPnl]
  | cons z zs ih =>
      simp only [sortPnl, List.foldr] at ih ⊢
      rw [mem_insertSorted, ih]
      simp

lemma length_insertSorted (x : ℚ) (l : List ℚ) :
    (insertSorted x l).length = l.length + 1 := by
  induction l with
  | nil => simp [insertSorted]
  | cons z zs ih =>
      by_cases h : x ≤ z
      · simp [insertSorted, h]
      · simp [insertSorted, h, ih]

lemma length_sortPnl (xs : List ℚ) : (sortPnl xs).length = xs.length := by
  induction xs with
  | nil => rfl
  | cons z zs ih =>
      simp only [sortPnl, List.foldr] at ih ⊢
      rw [length_insertSorted, ih, List.length_cons]

lemma quantileOf_mem (xs : List ℚ) (p : ℚ) (h : xs ≠ []) :
    quantileOf xs p ∈ xs := by
  have hlen : (sortPnl xs).length = xs.length := length_sortPnl xs
  have hpos : 0 < (sortPnl xs).length := by
    rw [hlen]
    exact List.length_pos.mpr h
  have hidx : min (Int.toNat ⌊p * (sortPnl xs).length⌋) ((sortPnl xs).length - 1)
      < (sortPnl xs).length := by
    have : (sortPnl xs).length - 1 < (sortPnl xs).length := Nat.sub_lt hpos Nat.one_pos
    exact lt_of_le_of_lt (min_le_right _ _) this
  have hget : (sortPnl xs).getD
      (min (Int.toNat ⌊p * (sortPnl xs).length⌋) ((sortPnl xs).length - 1)) 0
      ∈ sortPnl xs := by
    rw [List.getD_eq_getElem _ _ hidx]
    exact List.getElem_mem _
  rw [← mem_sortPnl]
  exact hget

lemma sum_le_card_mul (l : List ℚ) (q : ℚ) (h : ∀ x ∈ l, x ≤ q) :
    l.sum ≤ l.length * q := by
  induction l with
  | nil => simp
  | cons z zs ih =>
      have hz : z ≤ q := h z (List.mem_cons_self z zs)
      have hzs : zs.sum ≤ zs.length * q := ih (fun x hx => h x (List.mem_cons_of_mem z hx))
      simp only [List.sum_cons, List.length_cons]
      push_cast
      nlinarith

lemma mean_le_of_forall_le (l : List ℚ) (q : ℚ) (hne : l ≠ [])
    (h : ∀ x ∈ l, x ≤ q) : l.sum / l.length ≤ q := by
  have hpos : (0 : ℚ) < l.length := by
    have := List.length_pos.mpr hne
    exact_mod_cast this
  rw [div_le_iff₀ hpos]
  have := sum_le_card_mul l q h
  linarith [this]

/-- C3: for every Monte Carlo P&L sample and every confidence level, the
reported CVaR is at least the reported VaR, in dollar and in percent form
(loss-magnitude sign convention). -/
theorem cvar_ge_var (pnl : List ℚ) (capital alpha : ℚ)
    (hne : pnl ≠ []) (hcap : 0 < capital) :
    (varCvarAt pnl capital alpha).VaR_dollar ≤ (varCvarAt pnl capital alpha).CVaR_dollar ∧
    (varCvarAt pnl capital alpha).VaR_percent ≤ (varCvarAt pnl capital alpha).CVaR_percent := by
  have hq : quantileOf pnl (1 - alpha) ∈ pnl := quantileOf_mem pnl (1 - alpha) hne
  set q := quantileOf pnl (1 - alpha) with hqdef
  have htail_mem : q ∈ pnl.filter (fun x => x ≤ q) := by
    rw [List.mem_filter]
    exact ⟨hq, by simp⟩
  have htail_ne : pnl.filter (fun x => x ≤ q) ≠ [] := by
    intro hcontra
    rw [hcontra] at htail_mem
    exact List.not_mem_nil q htail_mem
  have hforall : ∀ x ∈ pnl.filter (fun x => x ≤ q), x ≤ q := by
    intro x hx
    have := (List.mem_filter.mp hx).2
    exact of_decide_eq_true this
  have hmean : (pnl.filter (fun x => x ≤ q)).sum / (pnl.filter (fun x => x ≤ q)).length ≤ q :=
    mean_le_of_forall_le _ q htail_ne hforall
  have hdollar : -q ≤ -((pnl.filter (fun x => x ≤ q)).sum / (pnl.filter (fun x => x ≤ q)).length) := by
    linarith
  constructor
  · simpa [varCvarAt, hqdef] using hdollar
  · have hpercent : -q / capital * 100 ≤
        -((pnl.filter (fun x => x ≤ q)).sum / (pnl.filter (fun x => x ≤ q)).length) / capital * 100 := by
      gcongr
    simpa [varCvarAt, hqdef] using hpercent

/-- Witness for C3 at a concrete three-element P&L sample with α = 95%. -/
theorem cvar_ge_var_witness :
    (varCvarAt [-3, -1, 2] 100 (95/100)).VaR_dollar ≤
      (varCvarAt [-3, -1, 2] 100 (95/100)).CVaR_dollar ∧
    (varCvarAt [-3, -1, 2] 100 (95/100)).VaR_percent ≤
      (varCvarAt [-3, -1, 2] 100 (95/100)).CVaR_percent :=
  cvar_ge_var [-3, -1, 2] 100 (95/100) (by decide) (by norm_num)

/-- Modelled from the spec: the engine draws randomness from an explicitly
seeded generator (`brain.py` is absent from the sources).  A 32-bit linear
congruential step. -/
def lcgNext (s : ℕ) : ℕ := (1664525 * s + 1013904223) % 4294967296

/-- Modelled from the spec: one pseudo standard-normal draw, obtained from
three LCG steps by an Irwin-Hall style sum of uniforms, returning the draw
and the advanced generator state. -/
def normalDraw (s : ℕ) : ℚ × ℕ :=
  let s1 := lcgNext s
  let s2 := lcgNext s1
  let s3 := lcgNext s2
  (((s1 : ℚ) + s2 + s3) / 4294967296 * 2 - 3, s3)

/-- Draw `n` pseudo-normal variates, threading the generator state. -/
def drawN : ℕ → ℕ → List ℚ × ℕ
  | 0, s => ([], s)
  | Nat.succ k, s =>
      let p := normalDraw s
      let rest := drawN k p.2
      (p.1 :: rest.1, rest.2)

/-- One Newton step for the square root of `x` at guess `g`. -/
def sqrtStep (x g : ℚ) : ℚ := (g + x / g) / 2

/-- Rational Newton approximation of `√x` (four iterations), standing in for
the irrational horizon scaling factor `√(horizon/252)` of the spec. -/
def sqrtApprox (x : ℚ) : ℚ :=
  if x ≤ 0 then 0
  else sqrtStep x (sqrtStep x (sqrtStep x (sqrtStep x ((x + 1) / 2))))

/-- Inputs of the Monte Carlo engine: weights, the lower-triangular Cholesky
factor `L` of Σ (the factorization itself is numeric-library work and enters
the model as data), annualized drifts `μ`, simulation count, horizon and
capital. -/
structure MCParams where
  weights : List ℚ
  cholL : List (List ℚ)
  mu : List ℚ
  n_simulations : ℕ
  horizon_days : ℕ
  capital : ℚ
deriving DecidableEq

/-- Modelled from the spec: per-simulation correlated returns
`R = μ·(h/252) + (L·Z)·√(h/252)` and portfolio P&L `capital · (w·R)`,
iterated `n` times with the generator state threaded between simulations. -/
def simPnls (p : MCParams) : ℕ → ℕ → List ℚ
  | 0, _ => []
  | Nat.succ k, s =>
      let z := drawN p.weights.length s
      let scaleVol := sqrtApprox ((p.horizon_days : ℚ) / 252)
      let scaleDrift := (p.horizon_days : ℚ) / 252
      let shocks := (matVec p.cholL z.1).map (· * scaleVol)
      let r := (p.mu.map (· * scaleDrift)).zipWith (· + ·) shocks
      (p.capital * dot p.weights r) :: simPnls p k z.2

/-- A Monte Carlo result: simulation count, horizon, the P&L sample and the
VaR/CVaR table for the three requested confidence levels, mirroring the
`MonteCarloResult` shape of `frontend/src/lib/api.ts`. -/
structure MonteCarloOutcome where
  n_simulations : ℕ
  time_horizon_days : ℕ
  pnl : List ℚ
  var_cvar : List (String × VarCvarEntry)
deriving DecidableEq

/-- Modelled from the spec: the full Monte Carlo simulation as a pure
function of the inputs and the explicit seed. -/
def mcSimulate (p : MCParams) (seed : ℕ) : MonteCarloOutcome :=
  let pnl := simPnls p p.n_simulations seed
  { n_simulations := p.n_simulations
    time_horizon_days := p.horizon_days
    pnl := pnl
    var_cvar := [("90%", varCvarAt pnl p.capital (90/100)),
                 ("95%", varCvarAt pnl p.capital (95/100)),
                 ("99%", varCvarAt pnl p.capital (99/100))] }

/-- C8: two Monte Carlo runs with equal inputs and equal explicit seeds
return identical results; in particular the VaR/CVaR tables coincide. -/
theorem mc_deterministic_same_seed (p q : MCParams) (s t : ℕ)
    (hp : p = q) (hs : s = t) :
    mcSimulate p s = mcSimulate q t ∧
    (mcSimulate p s).var_cvar = (mcSimulate q t).var_cvar := by
  subst hp
  subst hs
  exact ⟨rfl, rfl⟩

/-- Parameters of the spec's concrete scenario B: a single-bond portfolio
with 10% volatility, $100,000 capital and 10,000 simulations. -/
def scenarioBParams : MCParams :=
  { weights := [1]
    cholL := [[1/10]]
    mu := [5/100]
    n_simulations := 10000
    horizon_days := 252
    capital := 100000 }

/-- Witness for C8: scenario B re-run with the same fixed seed. -/
theorem mc_deterministic_witness :
    mcSimulate scenarioBParams 2024 = mcSimulate scenarioBParams 2024 ∧
    (mcSimulate scenarioBParams 2024).var_cvar =
      (mcSimulate scenarioBParams 2024).var_cvar :=
  mc_deterministic_same_seed scenarioBParams scenarioBParams 2024 2024 rfl rfl

/-- A bond record, mirroring the `Bond` interface of
`frontend/src/lib/api.ts` (`Bond_ID`, `Company`, `Sector`, `Rating`,
`Duration`, `Yield`, `Volatility`). -/
structure Bond where
  bond_id : String
  company : String
  sector : String
  rating : String
  duration : ℚ
  yieldRate : ℚ
  volatility : ℚ
deriving DecidableEq

/-- Constraint record of an optimization request, mirroring the spec's
`OptimizationConstraints` and the `OptimizeParams` interface of
`frontend/src/lib/api.ts`.  `duration_tol` is the spec's tunable tolerance
band on the duration-matching equality. -/
structure OptimizationConstraints where
  target_duration : ℚ
  capital : ℚ
  max_allocation : ℚ
  risk_free_rate : ℚ
  max_junk_allocation : ℚ
  max_sector_allocation : ℚ
  junk_ratings : List String
  duration_tol : ℚ
deriving DecidableEq

/-- The spec's 1e-6 tolerance on the weight-level constraints. -/
def weightTol : ℚ := 1 / 1000000

/-- Weighted portfolio yield `w · yield`. -/
def portfolioYield (bonds : List Bond) (w : List ℚ) : ℚ :=
  dot w (bonds.map (·.yieldRate))

/-- Weighted portfolio duration `w · duration`. -/
def portfolioDuration (bonds : List Bond) (w : List ℚ) : ℚ :=
  dot w (bonds.map (·.duration))

/-- Total weight allocated to bonds whose rating is in the junk set. -/
def junkAllocation (bonds : List Bond) (w : List ℚ) (junk : List String) : ℚ :=
  (((bonds.zip w).filter (fun p => p.1.rating ∈ junk)).map (·.2)).sum

/-- Total weight allocated to bonds of sector `s`. -/
def sectorAllocation (bonds : List Bond) (w : List ℚ) (s : String) : ℚ :=
  (((bonds.zip w).filter (fun p => p.1.sector = s)).map (·.2)).sum

/-- Modelled from the spec: the feasibility validation applied to a solver
candidate before it is returned as a success — full investment within 1e-6,
box bounds per weight, duration matching within the tolerance band, junk cap
and per-sector caps (`brain.py` is absent from the sources). -/
def checkFeasible (bonds : List Bond) (w : List ℚ) (c : OptimizationConstraints) : Bool :=
  decide (w.length = bonds.length) &&
  decide (|w.sum - 1| ≤ weightTol) &&
  w.all (fun x => decide (0 ≤ x) && decide (x ≤ c.max_allocation + weightTol)) &&
  decide (|portfolioDuration bonds w - c.target_duration| ≤ c.duration_tol) &&
  decide (junkAllocation bonds w c.junk_ratings ≤ c.max_junk_allocation + weightTol) &&
  (bonds.map (·.sector)).all
    (fun s => decide (sectorAllocation bonds w s ≤ c.max_sector_allocation + weightTol))

/-- Smallest duration present in the universe (0 on an empty universe). -/
def achievableMin (bonds : List Bond) : ℚ :=
  (bonds.map (·.duration)).foldr min ((bonds.map (·.duration)).headD 0)

/-- Largest duration present in the universe (0 on an empty universe). -/
def achievableMax (bonds : List Bond) : ℚ :=
  (bonds.map (·.duration)).foldr max ((bonds.map (·.duration)).headD 0)

/-- Modelled from the spec: the constrained solver is a library capability
("a constrained optimizer … returning an optimum or infeasibility"); the
model instantiates it with a deterministic duration-matching candidate, a
barbell over the shortest- and longest-duration bonds, validated afterwards
by `checkFeasible`. -/
def solverCandidate (bonds : List Bond) (t : ℚ) : List ℚ :=
  let dmin := achievableMin bonds
  let dmax := achievableMax bonds
  let imin := bonds.findIdx (fun b => decide (b.duration = dmin))
  let imax := bonds.findIdx (fun b => decide (b.duration = dmax))
  if imin = imax then
    (List.range bonds.length).map (fun i => if i = imin then 1 else 0)
  else
    let wmax := (t - dmin) / (dmax - dmin)
    (List.range bonds.length).map
      (fun i => if i = imax then wmax else if i = imin then 1 - wmax else 0)

/-- The spec's error taxonomy for the analytics core. -/
inductive CoreError where
  | curveFit
  | infeasibleConstraints
  | numerical
  | simulation
deriving DecidableEq

/-- Metrics of a successful optimization; volatility and Sharpe are real
square-root derived quantities, so the model carries the portfolio variance
`wᵀ Σ w` from which both are obtained. -/
structure PortfolioMetrics where
  portfolio_yield : ℚ
  portfolio_duration : ℚ
  portfolio_variance : ℚ
deriving DecidableEq

/-- Outcome of an optimization call, mirroring the `OptimizeResult` shape of
`frontend/src/lib/api.ts`: a success carries weights and metrics, a failure
carries only a structured kind and a human-readable message. -/
inductive OptimizeOutcome where
  | success (weights : List ℚ) (metrics : PortfolioMetrics)
  | failure (kind : CoreError) (message : String)
deriving DecidableEq

/-- The `success` flag of an outcome. -/
def OptimizeOutcome.isSuccess : OptimizeOutcome → Bool
  | .success _ _ => true
  | .failure _ _ => false

/-- The weights of an outcome, when present. -/
def OptimizeOutcome.getWeights : OptimizeOutcome → Option (List ℚ)
  | .success w _ => some w
  | .failure _ _ => none

/-- The metrics of an outcome, when present. -/
def OptimizeOutcome.getMetrics : OptimizeOutcome → Option PortfolioMetrics
  | .success _ m => some m
  | .failure _ _ => none

/-- Modelled from the spec: the optimizer consumes {universe, Σ, constraints},
declares infeasibility when the target duration is outside the achievable
range or when `max_allocation · n < 1` bars full investment, and otherwise
returns the solver candidate only after it passes the feasibility
validation; no partial weights are ever returned (`brain.py` is absent from
the sources). -/
def optimize (bonds : List Bond) (sigma : List (List ℚ))
    (c : OptimizationConstraints) : OptimizeOutcome :=
  if bonds.isEmpty then
    .failure .infeasibleConstraints "no feasible portfolio: bond universe is empty"
  else if c.target_duration < achievableMin bonds ∨
      achievableMax bonds < c.target_duration then
    .failure .infeasibleConstraints
      "no feasible portfolio: target_duration outside the achievable duration range of the universe"
  else if c.max_allocation * bonds.length < 1 then
    .failure .infeasibleConstraints
      "no feasible portfolio: max_allocation too restrictive to reach full investment"
  else if checkFeasible bonds (solverCandidate bonds c.target_duration) c then
    .success (solverCandidate bonds c.target_duration)
      { portfolio_yield := portfolioYield bonds (solverCandidate bonds c.target_duration)
        portfolio_duration := portfolioDuration bonds (solverCandidate bonds c.target_duration)
        portfolio_variance := quadForm sigma (solverCandidate bonds c.target_duration) }
  else
    .failure .infeasibleConstraints
      "no feasible portfolio: the solver candidate violates the constraint set"

lemma checkFeasible_spec (bonds : List Bond) (w : List ℚ) (c : OptimizationConstraints)
    (h : checkFeasible bonds w c = true) :
    |w.sum - 1| ≤ weightTol ∧
    (∀ x ∈ w, 0 ≤ x ∧ x ≤ c.max_allocation + weightTol) ∧
    |portfolioDuration bonds w - c.target_duration| ≤ c.duration_tol ∧
    junkAllocation bonds w c.junk_ratings ≤ c.max_junk_allocation + weightTol ∧
    (∀ s ∈ bonds.map (·.sector),
      sectorAllocation bonds w s ≤ c.max_sector_allocation + weightTol) := by
  simp only [checkFeasible, Bool.and_eq_true, decide_eq_true_eq, List.all_eq_true] at h
  obtain ⟨⟨⟨⟨⟨hlen, hsum⟩, hbox⟩, hdur⟩, hjunk⟩, hsec⟩ := h
  refine ⟨hsum, ?_, hdur, hjunk, ?_⟩
  · intro x hx
    have := hbox x hx
    simpa [Bool.and_eq_true, decide_eq_true_eq] using this
  · intro s hs
    have := hsec s hs
    simpa [decide_eq_true_eq] using this

/-- C1: whenever the optimizer returns a success, its weights satisfy every
declared constraint — full investment within 1e-6, each weight within the
position limit plus 1e-6, duration matching within the tolerance band, the
junk cap and every per-sector cap, each plus 1e-6. -/
theorem optimize_success_satisfies_constraints
    (bonds : List Bond) (sigma : List (List ℚ)) (c : OptimizationConstraints)
    (w : List ℚ) (m : PortfolioMetrics)
    (h : optimize bonds sigma c = .success w m) :
    |w.sum - 1| ≤ weightTol ∧
    (∀ x ∈ w, x ≤ c.max_allocation + weightTol) ∧
    |portfolioDuration bonds w - c.target_duration| ≤ c.duration_tol ∧
    junkAllocation bonds w c.junk_ratings ≤ c.max_junk_allocation + weightTol ∧
    (∀ s ∈ bonds.map (·.sector),
      sectorAllocation bonds w s ≤ c.max_sector_allocation + weightTol) := by
  unfold optimize at h
  split at h
  · simp at h
  · split at h
    · simp at h
    · split at h
      · simp at h
      · split at h
        next hcheck =>
          injection h with hw hm
          subst hw
          obtain ⟨hsum, hbox, hdur, hjunk, hsec⟩ := checkFeasible_spec _ _ _ hcheck
          exact ⟨hsum, fun x hx => (hbox x hx).2, hdur, hjunk, hsec⟩
        next hcheck => simp at h

/-- First bond of the spec's concrete scenario A. -/
def scenarioABond1 : Bond :=
  { bond_id := "BOND-1", company := "Alpha Corp", sector := "Technology",
    rating := "AAA", duration := 3, yieldRate := 4/100, volatility := 5/100 }

/-- Second bond of the spec's concrete scenario A. -/
def scenarioABond2 : Bond :=
  { bond_id := "BOND-2", company := "Beta Corp", sector := "Utilities",
    rating := "AA", duration := 7, yieldRate := 6/100, volatility := 8/100 }

/-- Scenario A universe: two bonds with durations [3, 7] and yields [4%, 6%]. -/
def scenarioAUniverse : List Bond := [scenarioABond1, scenarioABond2]

/-- A diagonal covariance for scenario A with `Σ_ii = volatility_i²`. -/
def scenarioASigma : List (List ℚ) := [[1/400, 0], [0, 4/625]]

/-- Scenario A constraints: target duration 5 with 100% position limit. -/
def scenarioAConstraints : OptimizationConstraints :=
  { target_duration := 5, capital := 100000, max_allocation := 1,
    risk_free_rate := 1/100, max_junk_allocation := 1, max_sector_allocation := 1,
    junk_ratings := ["BB", "B", "CCC", "D"], duration_tol := 1/1000000 }

lemma scenarioA_eval :
    optimize scenarioAUniverse scenarioASigma scenarioAConstraints =
      .success [1/2, 1/2]
        { portfolio_yield := 1/20, portfolio_duration := 5,
          portfolio_variance := 89/40000 } := by
  norm_num [optimize, scenarioAUniverse, scenarioASigma, scenarioAConstraints,
    scenarioABond1, scenarioABond2, achievableMin, achievableMax, min_def, max_def,
    checkFeasible, solverCandidate, portfolioYield, portfolioDuration,
    junkAllocation, sectorAllocation, quadForm, dot, matVec, weightTol,
    List.findIdx_cons, List.range_succ, List.filter_cons, List.filter_nil]
  simp
  all_goals norm_num

/-- C4: the scenario A linear program returns the unique solution
w = [1/2, 1/2] with portfolio yield 5% and portfolio duration 5, and this is
the only weight pair meeting full investment plus exact duration matching. -/
theorem scenarioA_unique_solution :
    ((optimize scenarioAUniverse scenarioASigma scenarioAConstraints).getWeights
        = some [1/2, 1/2] ∧
      (optimize scenarioAUniverse scenarioASigma scenarioAConstraints).getMetrics.map
        (·.portfolio_yield) = some (1/20) ∧
      (optimize scenarioAUniverse scenarioASigma scenarioAConstraints).getMetrics.map
        (·.portfolio_duration) = some 5) ∧
    (∀ a b : ℚ, a + b = 1 → 3 * a + 7 * b = 5 → a = 1/2 ∧ b = 1/2) := by
  constructor
  · rw [scenarioA_eval]
    refine ⟨rfl, rfl, rfl⟩
  · intro a b h1 h2
    constructor <;> linarith

/-- Witness for C4's uniqueness clause at the concrete pair (1/2, 1/2). -/
theorem scenarioA_unique_solution_witness :
    (1 : ℚ)/2 = 1/2 ∧ (1 : ℚ)/2 = 1/2 :=
  scenarioA_unique_solution.2 (1/2) (1/2) (by norm_num) (by norm_num)

/-- Witness for C1: the successful scenario A optimization satisfies every
declared constraint. -/
theorem optimize_success_witness :
    |([(1 : ℚ)/2, 1/2].sum - 1)| ≤ weightTol ∧
    (∀ x ∈ [(1 : ℚ)/2, 1/2], x ≤ scenarioAConstraints.max_allocation + weightTol) ∧
    |portfolioDuration scenarioAUniverse [(1 : ℚ)/2, 1/2] -
      scenarioAConstraints.target_duration| ≤ scenarioAConstraints.duration_tol ∧
    junkAllocation scenarioAUniverse [(1 : ℚ)/2, 1/2] scenarioAConstraints.junk_ratings
      ≤ scenarioAConstraints.max_junk_allocation + weightTol ∧
    (∀ s ∈ scenarioAUniverse.map (·.sector),
      sectorAllocation scenarioAUniverse [(1 : ℚ)/2, 1/2] s
        ≤ scenarioAConstraints.max_sector_allocation + weightTol) :=
  optimize_success_satisfies_constraints scenarioAUniverse scenarioASigma
    scenarioAConstraints [1/2, 1/2]
    { portfolio_yield := 1/20, portfolio_duration := 5, portfolio_variance := 89/40000 }
    scenarioA_eval

/-- C2: on an infeasible constraint set — target duration outside the
achievable range, or a position limit too small for full investment — the
optimizer returns a failure classified `InfeasibleConstraintsError` with a
nonempty human-readable cause, `success = false`, and no weights or metrics. -/
theorem infeasible_request_returns_failure
    (bonds : List Bond) (sigma : List (List ℚ)) (c : OptimizationConstraints)
    (hne : bonds ≠ [])
    (hinf : c.target_duration < achievableMin bonds ∨
      achievableMax bonds < c.target_duration ∨
      c.max_allocation * (bonds.length : ℚ) < 1) :
    ∃ msg, optimize bonds sigma c = .failure .infeasibleConstraints msg ∧ msg ≠ "" ∧
      (optimize bonds sigma c).isSuccess = false ∧
      (optimize bonds sigma c).getWeights = none ∧
      (optimize bonds sigma c).getMetrics = none := by
  obtain ⟨b, bs, rfl⟩ := List.exists_cons_of_ne_nil hne
  by_cases h1 : c.target_duration < achievableMin (b :: bs) ∨
      achievableMax (b :: bs) < c.target_duration
  · have heq : optimize (b :: bs) sigma c = .failure .infeasibleConstraints
        "no feasible portfolio: target_duration outside the achievable duration range of the universe" := by
      unfold optimize
      rw [if_neg (by simp), if_pos h1]
    refine ⟨_, heq, by decide, ?_, ?_, ?_⟩ <;> rw [heq] <;> rfl
  · have h2 : c.max_allocation * (((b :: bs).length : ℕ) : ℚ) < 1 := by
      rcases hinf with ha | hb | hc
      · exact absurd (Or.inl ha) h1
      · exact absurd (Or.inr hb) h1
      · exact hc
    have heq : optimize (b :: bs) sigma c = .failure .infeasibleConstraints
        "no feasible portfolio: max_allocation too restrictive to reach full investment" := by
      unfold optimize
      rw [if_neg (by simp), if_neg h1, if_pos h2]
    refine ⟨_, heq, by decide, ?_, ?_, ?_⟩ <;> rw [heq] <;> rfl

/-- The spec's concrete scenario D: the scenario A request with target
duration 10, above every duration in the universe. -/
def scenarioDConstraints : OptimizationConstraints :=
  { scenarioAConstraints with target_duration := 10 }

/-- Witness for C2 at scenario D: target duration 10 against the [3, 7]
universe yields a declared infeasibility with no weights or metrics. -/
theorem infeasible_request_witness :
    ∃ msg, optimize scenarioAUniverse scenarioASigma scenarioDConstraints
        = .failure .infeasibleConstraints msg ∧ msg ≠ "" ∧
      (optimize scenarioAUniverse scenarioASigma scenarioDConstraints).isSuccess = false ∧
      (optimize scenarioAUniverse scenarioASigma scenarioDConstraints).getWeights = none ∧
      (optimize scenarioAUniverse scenarioASigma scenarioDConstraints).getMetrics = none :=
  infeasible_request_returns_failure scenarioAUniverse scenarioASigma scenarioDConstraints
    (by simp [scenarioAUniverse])
    (Or.inr (Or.inl (by norm_num [achievableMax, scenarioAUniverse, scenarioABond1,
      scenarioABond2, max_def, scenarioDConstraints, scenarioAConstraints])))

/-- A stress scenario of the fixed catalog: name, description, parallel
yield shock in basis points, credit-spread multiplier and volatility
multiplier, mirroring the spec's `StressScenario`. -/
structure StressScenario where
  name : String
  description : String
  yield_shock_bp : ℚ
  credit_spread_multiplier : ℚ
  vol_multiplier : ℚ
deriving DecidableEq

/-- Catalog entry: rates up 100bp. -/
def stressRateHike100 : StressScenario :=
  ⟨"Rate Hike 100bp", "Parallel shift up 100bp", 100, 1, 11/10⟩

/-- Catalog entry: rates down 100bp. -/
def stressRateCut100 : StressScenario :=
  ⟨"Rate Cut 100bp", "Parallel shift down 100bp", -100, 1, 11/10⟩

/-- Catalog entry: rates up 200bp. -/
def stressRateHike200 : StressScenario :=
  ⟨"Rate Hike 200bp", "Parallel shift up 200bp", 200, 1, 6/5⟩

/-- Catalog entry: rates down 200bp. -/
def stressRateCut200 : StressScenario :=
  ⟨"Rate Cut 200bp", "Parallel shift down 200bp", -200, 1, 6/5⟩

/-- Catalog entry: credit crisis. -/
def stressCreditCrisis : StressScenario :=
  ⟨"Credit Crisis", "Spread blowout across credit markets", 300, 2, 9/5⟩

/-- Catalog entry: flight to quality. -/
def stressFlightToQuality : StressScenario :=
  ⟨"Flight to Quality", "Treasury rally with risk assets sold", -150, 3/2, 7/5⟩

/-- Catalog entry: stagflation. -/
def stressStagflation : StressScenario :=
  ⟨"Stagflation", "Rates up while growth stalls", 250, 8/5, 3/2⟩

/-- Modelled from the spec: the fixed catalog of macro scenarios
(rate ±100bp/±200bp, credit crisis, flight-to-quality, stagflation);
`brain.py` is absent from the sources. -/
def stressCatalog : List StressScenario :=
  [stressRateHike100, stressRateCut100, stressRateHike200, stressRateCut200,
    stressCreditCrisis, stressFlightToQuality, stressStagflation]

/-- The base portfolio a stress test applies to: yield, duration,
volatility, invested capital and the risk-free rate. -/
structure BasePortfolio where
  yieldRate : ℚ
  duration : ℚ
  volatility : ℚ
  capital : ℚ
  risk_free_rate : ℚ
deriving DecidableEq

/-- One row of a stress-test result, mirroring the `StressScenarioResult`
interface of `frontend/src/lib/api.ts`. -/
structure StressScenarioResult where
  name : String
  description : String
  base_yield : ℚ
  stressed_yield : ℚ
  yield_change_bp : ℚ
  price_impact_pct : ℚ
  pnl_dollar : ℚ
  base_volatility : ℚ
  stressed_volatility : ℚ
  stressed_sharpe : ℚ
deriving DecidableEq

/-- Modelled from the spec: one scenario applied to the base portfolio —
first-order duration price impact with no convexity term,
`price_impact_pct = −duration · (shock_bp/10000)`,
`pnl_dollar = capital · price_impact_pct`, stressed volatility by the
scenario multiplier and the Sharpe ratio recomputed from the stressed
yield and volatility (`brain.py` is absent from the sources). -/
def runScenario (pf : BasePortfolio) (sc : StressScenario) : StressScenarioResult :=
  { name := sc.name
    description := sc.description
    base_yield := pf.yieldRate
    stressed_yield := pf.yieldRate + sc.yield_shock_bp / 10000
    yield_change_bp := sc.yield_shock_bp
    price_impact_pct := -pf.duration * (sc.yield_shock_bp / 10000)
    pnl_dollar := pf.capital * (-pf.duration * (sc.yield_shock_bp / 10000))
    base_volatility := pf.volatility
    stressed_volatility := pf.volatility * sc.vol_multiplier
    stressed_sharpe := (pf.yieldRate + sc.yield_shock_bp / 10000 - pf.risk_free_rate) /
      (pf.volatility * sc.vol_multiplier) }

/-- Modelled from the spec: the stress engine maps every catalog scenario
independently over the same base portfolio. -/
def stressTestResults (pf : BasePortfolio) : List StressScenarioResult :=
  stressCatalog.map (runScenario pf)

/-- The spec's concrete scenario C base portfolio: duration 5.0 on
$100,000 capital. -/
def scenarioCPortfolio : BasePortfolio :=
  { yieldRate := 5/100, duration := 5, volatility := 1/10,
    capital := 100000, risk_free_rate := 1/100 }

/-- C5: every stress row carries the first-order duration impact
`−duration · shock/10000` (no convexity term) and `pnl = capital · impact`;
concretely, duration 5.0 under +200bp on $100,000 gives impact −10% and
P&L −$10,000. -/
theorem stress_first_order_impact :
    (∀ (pf : BasePortfolio) (r : StressScenarioResult), r ∈ stressTestResults pf →
      r.price_impact_pct = -pf.duration * (r.yield_change_bp / 10000) ∧
      r.pnl_dollar = pf.capital * r.price_impact_pct) ∧
    (∃ r ∈ stressTestResults scenarioCPortfolio,
      r.yield_change_bp = 200 ∧ r.price_impact_pct = -(1/10) ∧
      r.pnl_dollar = -10000) := by
  constructor
  · intro pf r hr
    simp only [stressTestResults, List.mem_map] at hr
    obtain ⟨sc, hsc, rfl⟩ := hr
    exact ⟨rfl, rfl⟩
  · refine ⟨runScenario scenarioCPortfolio stressRateHike200,
      List.mem_map.mpr ⟨stressRateHike200, by simp [stressCatalog], rfl⟩, rfl, ?_, ?_⟩
    · norm_num [runScenario, scenarioCPortfolio, stressRateHike200]
    · norm_num [runScenario, scenarioCPortfolio, stressRateHike200]

/-- Witness for C5 at the +100bp catalog row on the scenario C portfolio. -/
theorem stress_first_order_impact_witness :
    (runScenario scenarioCPortfolio stressRateHike100).price_impact_pct =
      -scenarioCPortfolio.duration *
        ((runScenario scenarioCPortfolio stressRateHike100).yield_change_bp / 10000) ∧
    (runScenario scenarioCPortfolio stressRateHike100).pnl_dollar =
      scenarioCPortfolio.capital *
        (runScenario scenarioCPortfolio stressRateHike100).price_impact_pct :=
  stress_first_order_impact.1 scenarioCPortfolio
    (runScenario scenarioCPortfolio stressRateHike100)
    (List.mem_map.mpr ⟨stressRateHike100, by simp [stressCatalog], rfl⟩)

/-- A candidate portfolio available to the per-target Sharpe optimizer
during the frontier sweep: its duration, yield and (rational) volatility. -/
structure FrontierCandidate where
  duration : ℚ
  yieldRate : ℚ
  volatility : ℚ
deriving DecidableEq

/-- Sharpe ratio of a candidate against the risk-free rate. -/
def candSharpe (rf : ℚ) (c : FrontierCandidate) : ℚ :=
  (c.yieldRate - rf) / c.volatility

/-- Whether a candidate meets the duration target within the tolerance band. -/
def feasAt (c : FrontierCandidate) (t tol : ℚ) : Bool :=
  decide (|c.duration - t| ≤ tol)

/-- The Sharpe-maximal candidate of a list, `none` on the empty list. -/
def argmaxSharpe (rf : ℚ) : List FrontierCandidate → Option FrontierCandidate
  | [] => none
  | c :: rest =>
      match argmaxSharpe rf rest with
      | none => some c
      | some b => if candSharpe rf b < candSharpe rf c then some c else some b

/-- Modelled from the spec: the per-target Sharpe optimization — the
Sharpe-maximal candidate among those feasible at the duration target
(`brain.py` is absent from the sources). -/
def bestAt (cands : List FrontierCandidate) (rf t tol : ℚ) : Option FrontierCandidate :=
  argmaxSharpe rf (cands.filter (fun c => feasAt c t tol))

/-- One efficient-frontier point, mirroring the `FrontierPoint` interface of
`frontend/src/lib/api.ts` (`Target Duration`, `Yield`, `Volatility`,
`Sharpe Ratio`). -/
structure FrontierPoint where
  target_duration : ℚ
  yieldRate : ℚ
  volatility : ℚ
  sharpe : ℚ
deriving DecidableEq

/-- The swept duration grid from `dmin` to `dmax` in `steps` steps. -/
def durationSweep (dmin dmax : ℚ) (steps : ℕ) : List ℚ :=
  (List.range (steps + 1)).map (fun k => dmin + (dmax - dmin) * k / steps)

/-- Modelled from the spec: the frontier generator re-invokes the Sharpe
optimizer across the swept target-duration range, skipping infeasible
points; the frontier is the ordered list of successful tuples (`brain.py`
is absent from the sources). -/
def generateFrontier (cands : List FrontierCandidate) (rf dmin dmax : ℚ)
    (steps : ℕ) (tol : ℚ) : List FrontierPoint :=
  (durationSweep dmin dmax steps).filterMap (fun t =>
    (bestAt cands rf t tol).map (fun c =>
      { target_duration := t, yieldRate := c.yieldRate,
        volatility := c.volatility, sharpe := candSharpe rf c }))

/-- Insert a frontier point into a list ascending by volatility. -/
def insertByVol (p : FrontierPoint) : List FrontierPoint → List FrontierPoint
  | [] => [p]
  | q :: rest =>
      if p.volatility ≤ q.volatility then p :: q :: rest else q :: insertByVol p rest

/-- Sort frontier points ascending by volatility (insertion sort). -/
def sortByVolatility (ps : List FrontierPoint) : List FrontierPoint :=
  ps.foldr insertByVol []

/-- Whether consecutive yields are non-decreasing along a point list. -/
def yieldsNonDecreasing : List FrontierPoint → Bool
  | [] => true
  | [_] => true
  | p :: q :: rest => decide (p.yieldRate ≤ q.yieldRate) && yieldsNonDecreasing (q :: rest)

/-- A short-duration, high-yield, low-volatility candidate. -/
def demoShortBond : FrontierCandidate := ⟨3, 8/100, 5/100⟩

/-- A long-duration, low-yield, high-volatility candidate. -/
def demoLongBond : FrontierCandidate := ⟨7, 2/100, 20/100⟩

/-- A two-candidate universe on which the frontier sweep produces a
dominated ordering. -/
def demoCandidates : List FrontierCandidate := [demoShortBond, demoLongBond]

/-- C6 counterexample: on the two-candidate universe the generated
frontier, sorted by volatility, has strictly decreasing yields — the
sweep's point at the low-volatility end carries the higher yield. -/
theorem frontier_sorted_yield_counterexample :
    yieldsNonDecreasing (sortByVolatility
      (generateFrontier demoCandidates (1/100) 3 7 1 (1/10))) = false := by
  norm_num [generateFrontier, durationSweep, bestAt, argmaxSharpe, candSharpe,
    feasAt, demoCandidates, demoShortBond, demoLongBond, sortByVolatility,
    insertByVol, yieldsNonDecreasing, List.range_succ, List.filter_cons,
    List.filter_nil, List.filterMap_cons, List.filterMap_nil]

lemma argmaxSharpe_cons_ne_none (rf : ℚ) (a : FrontierCandidate)
    (rest : List FrontierCandidate) : argmaxSharpe rf (a :: rest) ≠ none := by
  simp only [argmaxSharpe]
  cases argmaxSharpe rf rest with
  | none => simp
  | some b =>
      by_cases hlt : candSharpe rf b < candSharpe rf a <;> simp [hlt]

lemma argmaxSharpe_eq_none (rf : ℚ) (l : List FrontierCandidate) :
    argmaxSharpe rf l = none ↔ l = [] := by
  cases l with
  | nil => simp [argmaxSharpe]
  | cons a rest =>
      constructor
      · intro h
        exact absurd h (argmaxSharpe_cons_ne_none rf a rest)
      · intro h
        exact absurd h (List.cons_ne_nil a rest)

lemma argmaxSharpe_le (rf : ℚ) (l : List FrontierCandidate) (b : FrontierCandidate)
    (h : argmaxSharpe rf l = some b) :
    ∀ c ∈ l, candSharpe rf c ≤ candSharpe rf b := by
  induction l generalizing b with
  | nil => simp [argmaxSharpe] at h
  | cons a rest ih =>
      intro c hc
      simp only [argmaxSharpe] at h
      cases hrest : argmaxSharpe rf rest with
      | none =>
          have hnil : rest = [] := (argmaxSharpe_eq_none rf rest).mp hrest
          simp only [hrest] at h
          injection h with hb
          subst hnil
          rcases List.mem_cons.mp hc with rfl | hcr
          · rw [hb]
          · simp at hcr
      | some b0 =>
          simp only [hrest] at h
          by_cases hlt : candSharpe rf b0 < candSharpe rf a
          · rw [if_pos hlt] at h
            injection h with hb
            rcases List.mem_cons.mp hc with rfl | hcr
            · rw [hb]
            · have := ih b0 hrest c hcr
              rw [← hb]
              linarith
          · rw [if_neg hlt] at h
            injection h with hb
            rcases List.mem_cons.mp hc with rfl | hcr
            · rw [← hb]
              linarith [le_of_not_lt hlt]
            · rw [← hb]
              exact ih b0 hrest c hcr

/-- C6 amended: every generated frontier point is Sharpe-optimal among the
candidates feasible at its own duration target — no frontier point is
dominated in Sharpe ratio at its target; sorted by volatility, however,
yields need not be non-decreasing. -/
theorem frontier_points_sharpe_optimal
    (cands : List FrontierCandidate) (rf dmin dmax : ℚ) (steps : ℕ) (tol : ℚ)
    (p : FrontierPoint) (hp : p ∈ generateFrontier cands rf dmin dmax steps tol) :
    ∀ c ∈ cands, feasAt c p.target_duration tol = true → candSharpe rf c ≤ p.sharpe := by
  intro c hc hfeas
  simp only [generateFrontier, List.mem_filterMap] at hp
  obtain ⟨t, ht, hbest⟩ := hp
  cases hb : bestAt cands rf t tol with
  | none =>
      rw [hb] at hbest
      simp at hbest
  | some b =>
      rw [hb] at hbest
      simp only [Option.map_some'] at hbest
      injection hbest with hpt
      subst hpt
      dsimp only at hfeas ⊢
      exact argmaxSharpe_le rf _ b hb c (List.mem_filter.mpr ⟨hc, hfeas⟩)

/-- Witness for C6's amended claim: the low-volatility frontier point of
the two-candidate universe dominates the short bond's Sharpe at its own
target. -/
theorem frontier_sharpe_optimal_witness :
    candSharpe (1/100) demoShortBond ≤
      (FrontierPoint.mk 3 (8/100) (5/100) (7/5)).sharpe :=
  frontier_points_sharpe_optimal demoCandidates (1/100) 3 7 1 (1/10)
    (FrontierPoint.mk 3 (8/100) (5/100) (7/5))
    (by norm_num [generateFrontier, durationSweep, bestAt, argmaxSharpe, candSharpe,
      feasAt, demoCandidates, demoShortBond, demoLongBond, List.range_succ,
      List.filter_cons, List.filter_nil, List.filterMap_cons, List.filterMap_nil])
    demoShortBond (by simp [demoCandidates])
    (by norm_num [feasAt, demoShortBond])

/-- The percent value presentation derives from a field stored as a decimal
fraction (the spec's boundary convention: 0.05 means 5%, and formatting
multiplies by 100). -/
def decimalFractionToPercent (x : ℚ) : ℚ := x * 100

/-- The numeric value the dashboard renders before the percent sign for the
`Portfolio Yield` metric: `(metrics["Portfolio Yield"] * 100).toFixed(2)`
(`frontend/src/app/dashboard/page.tsx`). -/
def kpiPortfolioYieldDisplay (y : ℚ) : ℚ := y * 100

/-- The value rendered for the `Portfolio Volatility` metric:
`(metrics["Portfolio Volatility"] * 100).toFixed(2)`
(`frontend/src/app/dashboard/page.tsx`). -/
def kpiPortfolioVolatilityDisplay (v : ℚ) : ℚ := v * 100

/-- The yield value charted for the fitted curve:
`yieldData.curve.yields[i] * 100` (`frontend/src/app/dashboard/page.tsx`). -/
def yieldCurveChartDisplay (r : ℚ) : ℚ := r * 100

/-- The value rendered for a trade-sheet bond yield:
`(b.Yield * 100).toFixed(2)` (`frontend/src/app/dashboard/page.tsx`). -/
def tradeSheetYieldDisplay (y : ℚ) : ℚ := y * 100

/-- The value rendered before the percent sign for a Monte Carlo
`VaR_percent` field: the template renders the raw field
(`frontend/src/components/AnalyticsPanels.tsx`). -/
def mcVarPercentDisplay (v : ℚ) : ℚ := v

/-- The value rendered for a Monte Carlo `CVaR_percent` field, used raw
(`frontend/src/components/AnalyticsPanels.tsx`). -/
def mcCvarPercentDisplay (v : ℚ) : ℚ := v

/-- The value rendered for the Monte Carlo `prob_loss` field, used raw
(`frontend/src/components/AnalyticsPanels.tsx`). -/
def mcProbLossDisplay (p : ℚ) : ℚ := p

/-- The value rendered for a stress row's `price_impact_pct`, used raw
(`frontend/src/components/AnalyticsPanels.tsx`). -/
def stressPriceImpactDisplay (x : ℚ) : ℚ := x

/-- The value rendered for a stress row's `stressed_volatility`, used raw
(`frontend/src/components/AnalyticsPanels.tsx`). -/
def stressedVolatilityDisplay (x : ℚ) : ℚ := x

/-- The value rendered for a backtest `total_return_pct`, used raw
(`frontend/src/components/AnalyticsPanels.tsx`). -/
def backtestReturnPctDisplay (x : ℚ) : ℚ := x

/-- The value rendered for a backtest alpha field, used raw
(`frontend/src/components/AnalyticsPanels.tsx`). -/
def backtestAlphaDisplay (x : ℚ) : ℚ := x

/-- C7 counterexample: the fields the claim lists are not all decimal
fractions at the computation boundary — were `VaR_percent`,
`price_impact_pct`, `stressed_volatility` and the backtest return
percentages decimal fractions, the UI (which appends a percent sign to the
raw value) would have to scale them by 100, but it renders them unchanged;
at the concrete value 5 the rendered number differs from the percent form
of a decimal fraction. -/
theorem boundary_units_counterexample :
    ¬ (mcVarPercentDisplay 5 = decimalFractionToPercent 5 ∧
       mcCvarPercentDisplay 5 = decimalFractionToPercent 5 ∧
       stressPriceImpactDisplay 5 = decimalFractionToPercent 5 ∧
       stressedVolatilityDisplay 5 = decimalFractionToPercent 5 ∧
       backtestReturnPctDisplay 5 = decimalFractionToPercent 5) := by
  intro h
  have := h.1
  norm_num [mcVarPercentDisplay, decimalFractionToPercent] at this

/-- C7 amended: optimizer metrics, bond-level yields and curve rates are
decimal fractions at the boundary (the UI multiplies them by 100 before
appending a percent sign), while the Monte Carlo percent fields and
`prob_loss`, the stress-test `price_impact_pct` and `stressed_volatility`,
and the backtest return and alpha percentages arrive already expressed in
percent (the UI renders them unchanged). -/
theorem boundary_units_amended (x : ℚ) :
    kpiPortfolioYieldDisplay x = decimalFractionToPercent x ∧
    kpiPortfolioVolatilityDisplay x = decimalFractionToPercent x ∧
    yieldCurveChartDisplay x = decimalFractionToPercent x ∧
    tradeSheetYieldDisplay x = decimalFractionToPercent x ∧
    mcVarPercentDisplay x = x ∧
    mcCvarPercentDisplay x = x ∧
    mcProbLossDisplay x = x ∧
    stressPriceImpactDisplay x = x ∧
    stressedVolatilityDisplay x = x ∧
    backtestReturnPctDisplay x = x ∧
    backtestAlphaDisplay x = x :=
  ⟨rfl, rfl, rfl, rfl, rfl, rfl, rfl, rfl, rfl, rfl, rfl⟩

/-- An HTTP response as the client sees it: the `ok` flag and the parsed
JSON body. -/
structure HttpResponse (α : Type) where
  ok : Bool
  body : α

/-- `fetchYieldCurve` of `frontend/src/lib/api.ts`: throw on `!res.ok`,
otherwise return the parsed body. -/
def fetchYieldCurve {α : Type} (res : HttpResponse α) : Except String α :=
  if res.ok then .ok res.body else .error "Failed to fetch yield curve"

/-- `fetchBonds` of `frontend/src/lib/api.ts`. -/
def fetchBonds {α : Type} (res : HttpResponse α) : Except String α :=
  if res.ok then .ok res.body else .error "Failed to fetch bonds"

/-- `runOptimizer` of `frontend/src/lib/api.ts`. -/
def runOptimizer {α : Type} (res : HttpResponse α) : Except String α :=
  if res.ok then .ok res.body else .error "Optimization request failed"

/-- `fetchEfficientFrontier` of `frontend/src/lib/api.ts`. -/
def fetchEfficientFrontier {α : Type} (res : HttpResponse α) : Except String α :=
  if res.ok then .ok res.body else .error "Frontier request failed"

/-- `runMonteCarlo` of `frontend/src/lib/api.ts`. -/
def runMonteCarlo {α : Type} (res : HttpResponse α) : Except String α :=
  if res.ok then .ok res.body else .error "Monte Carlo request failed"

/-- `runStressTest` of `frontend/src/lib/api.ts`. -/
def runStressTest {α : Type} (res : HttpResponse α) : Except String α :=
  if res.ok then .ok res.body else .error "Stress test request failed"

/-- `runBacktest` of `frontend/src/lib/api.ts`. -/
def runBacktest {α : Type} (res : HttpResponse α) : Except String α :=
  if res.ok then .ok res.body else .error "Backtest request failed"

/-- C9: every client API function throws an `Error` with its fixed message
exactly when the HTTP response has `ok = false`, producing no result value,
and otherwise returns the parsed JSON body unmodified — transport failure
surfaces as an exception, domain failure travels inside the body. -/
theorem api_client_error_behavior (α : Type) (res : HttpResponse α) :
    (res.ok = false →
      fetchYieldCurve res = .error "Failed to fetch yield curve" ∧
      fetchBonds res = .error "Failed to fetch bonds" ∧
      runOptimizer res = .error "Optimization request failed" ∧
      fetchEfficientFrontier res = .error "Frontier request failed" ∧
      runMonteCarlo res = .error "Monte Carlo request failed" ∧
      runStressTest res = .error "Stress test request failed" ∧
      runBacktest res = .error "Backtest request failed") ∧
    (res.ok = true →
      fetchYieldCurve res = .ok res.body ∧
      fetchBonds res = .ok res.body ∧
      runOptimizer res = .ok res.body ∧
      fetchEfficientFrontier res = .ok res.body ∧
      runMonteCarlo res = .ok res.body ∧
      runStressTest res = .ok res.body ∧
      runBacktest res = .ok res.body) := by
  obtain ⟨ok, body⟩ := res
  cases ok <;>
    simp [fetchYieldCurve, fetchBonds, runOptimizer, fetchEfficientFrontier,
      runMonteCarlo, runStressTest, runBacktest]

/-- Witness for C9 at a failed response with a rational body. -/
theorem api_client_error_behavior_witness :
    fetchYieldCurve (HttpResponse.mk false (0 : ℚ)) = .error "Failed to fetch yield curve" ∧
    fetchBonds (HttpResponse.mk false (0 : ℚ)) = .error "Failed to fetch bonds" ∧
    runOptimizer (HttpResponse.mk false (0 : ℚ)) = .error "Optimization request failed" ∧
    fetchEfficientFrontier (HttpResponse.mk false (0 : ℚ)) = .error "Frontier request failed" ∧
    runMonteCarlo (HttpResponse.mk false (0 : ℚ)) = .error "Monte Carlo request failed" ∧
    runStressTest (HttpResponse.mk false (0 : ℚ)) = .error "Stress test request failed" ∧
    runBacktest (HttpResponse.mk false (0 : ℚ)) = .error "Backtest request failed" :=
  (api_client_error_behavior ℚ (HttpResponse.mk false 0)).1 rfl

/-- The sidebar state `handleOptimize` reads
(`frontend/src/app/dashboard/page.tsx`): capital, target duration, the
percent-unit sliders and the junk rating selection. -/
structure SidebarState where
  capital : ℚ
  targetDuration : ℚ
  maxAllocation : ℚ
  riskFreeRate : ℚ
  maxJunk : ℚ
  maxSector : ℚ
  junkRatings : List String
deriving DecidableEq

/-- The efficient-frontier request body: by its type
(`Omit<OptimizeParams, 'target_duration' | 'objective_type'>` in
`frontend/src/lib/api.ts`) it has no `target_duration` and no
`objective_type` field. -/
structure FrontierRequestBody where
  capital : ℚ
  max_allocation : ℚ
  max_junk_bond_allocation : ℚ
  max_sector_allocation : ℚ
  junk_bond_ratings : List String
  risk_free_rate : ℚ
deriving DecidableEq

/-- The frontier request `handleOptimize` builds: the six sidebar-derived
fields, with sliders scaled from percent to fractions
(`frontend/src/app/dashboard/page.tsx`). -/
def buildFrontierRequest (st : SidebarState) : FrontierRequestBody :=
  { capital := st.capital
    max_allocation := st.maxAllocation / 100
    max_junk_bond_allocation := st.maxJunk / 100
    max_sector_allocation := st.maxSector / 100
    junk_bond_ratings := st.junkRatings
    risk_free_rate := st.riskFreeRate }

/-- The only part of the optimize response `handleOptimize` inspects before
deciding on the frontier request: the `success` flag. -/
structure OptimizeResponseLite where
  success : Bool
deriving DecidableEq

/-- The frontier request issued by `handleOptimize`, if any: the optimize
call must have returned (no thrown transport error), the objective must be
"Optimize Sharpe Ratio" and the response must carry `success = true`
(`frontend/src/app/dashboard/page.tsx`). -/
def frontierRequestOf (st : SidebarState) (objective : String)
    (res : Except String OptimizeResponseLite) : Option FrontierRequestBody :=
  match res with
  | .error _ => none
  | .ok r =>
      if objective = "Optimize Sharpe Ratio" ∧ r.success = true then
        some (buildFrontierRequest st)
      else none

/-- The frontier state after `handleOptimize`: it is reset to `[]` up
front and set to the server's frontier only when a frontier request was
made (`frontend/src/app/dashboard/page.tsx`). -/
def frontierStateAfter (st : SidebarState) (objective : String)
    (res : Except String OptimizeResponseLite)
    (serverFrontier : List FrontierPoint) : List FrontierPoint :=
  match frontierRequestOf st objective res with
  | some _ => serverFrontier
  | none => []

/-- C10: `handleOptimize` issues a frontier request iff the objective is
"Optimize Sharpe Ratio" and the optimize call returned `success = true`;
any request equals the six-field body (hence omits `target_duration` and
`objective_type`, which its type does not even carry); with no request the
frontier state stays `[]`, in particular in "Maximize Yield" mode. -/
theorem dashboard_frontier_gating (st : SidebarState) (objective : String)
    (res : Except String OptimizeResponseLite) (sf : List FrontierPoint) :
    ((frontierRequestOf st objective res).isSome = true ↔
      (objective = "Optimize Sharpe Ratio" ∧ ∃ r, res = .ok r ∧ r.success = true)) ∧
    (∀ p, frontierRequestOf st objective res = some p → p = buildFrontierRequest st) ∧
    (frontierRequestOf st objective res = none →
      frontierStateAfter st objective res sf = []) ∧
    (objective = "Maximize Yield" →
      frontierRequestOf st objective res = none ∧
      frontierStateAfter st objective res sf = []) := by
  refine ⟨?_, ?_, ?_, ?_⟩
  · cases res with
    | error e => simp [frontierRequestOf]
    | ok r =>
        by_cases h : objective = "Optimize Sharpe Ratio" ∧ r.success = true
        · simp [frontierRequestOf, h]
        · simp only [frontierRequestOf, if_neg h, Option.isSome_none,
            Bool.false_eq_true, false_iff]
          intro hcontra
          obtain ⟨h1, r2, hr2, hs2⟩ := hcontra
          injection hr2 with hr2
          exact h ⟨h1, by rw [hr2]; exact hs2⟩
  · intro p hp
    cases res with
    | error e => simp [frontierRequestOf] at hp
    | ok r =>
        simp only [frontierRequestOf] at hp
        split at hp
        · injection hp with h
          exact h.symm
        · simp at hp
  · intro h
    simp [frontierStateAfter, h]
  · intro h
    subst h
    cases res with
    | error e => exact ⟨rfl, rfl⟩
    | ok r =>
        have hne : ¬("Maximize Yield" = "Optimize Sharpe Ratio" ∧ r.success = true) := by
          intro hcontra
          exact absurd hcontra.1 (by decide)
        constructor
        · simp [frontierRequestOf, hne]
        · simp [frontierStateAfter, frontierRequestOf, hne]

/-- The dashboard's initial sidebar state
(`frontend/src/app/dashboard/page.tsx`): $100,000 capital, target duration
5.0, sliders 20/30/25 percent, risk-free rate 1%, sub-investment-grade
junk set. -/
def defaultSidebar : SidebarState :=
  { capital := 100000, targetDuration := 5, maxAllocation := 20,
    riskFreeRate := 1/100, maxJunk := 30, maxSector := 25,
    junkRatings := ["BB", "B", "CCC", "D"] }

/-- Witness for C10: in "Maximize Yield" mode, even on a successful
optimization, no frontier request is made and the frontier state is `[]`. -/
theorem dashboard_frontier_gating_witness :
    frontierRequestOf defaultSidebar "Maximize Yield"
        (.ok (OptimizeResponseLite.mk true)) = none ∧
    frontierStateAfter defaultSidebar "Maximize Yield"
        (.ok (OptimizeResponseLite.mk true)) [] = [] :=
  (dashboard_frontier_gating defaultSidebar "Maximize Yield"
    (.ok (OptimizeResponseLite.mk true)) []).2.2.2 rfl
